import Mathlib

/-!
Shallow embedding of the `bevy_previous` crate (files `src/lib.rs` and
`bevy_previous_macro/src/lib.rs`).

The crate maintains, for a component type `T` and a schedule label `S`, a
shadow component `Previous<T, S>` holding the value `T` had at the last run
of schedule `S`.  The embedding models:

* the built-in bevy schedule labels as the inductive `ScheduleLabel`
  (labels are defunctionalised: a Rust schedule-label *type* becomes a
  *value* of this inductive);
* the world state visible to the `update` system as `World`:
  per-entity presence of `T` (`tval`), the host change flag for `T`
  (`changed`), the `Previous<T, s>` record for each label `s` (`prev`,
  storing the wrapped payload), other unrelated components (`other`), and
  entity existence (`alive`);
* the system `fn update<T: Component + Clone>` from `src/lib.rs` lines
  227-237 as the state transformer `update`.  Note the source system is
  generic over `T` only: its query filter is
  `Or<(Without<Previous<T>>, Changed<T>)>` and it inserts
  `Previous::<T>::new(t.clone())`, where both occurrences of `Previous<T>`
  elaborate with the *default* second parameter `S = Last`.  The embedding
  reproduces this exactly: `update` reads and writes the record at label
  `ScheduleLabel.Last` only, regardless of the schedule the system was
  registered in;
* `PreviousPlugin` and its `build`/`new`/`default` (lines 206-260), with an
  `App` holding the per-schedule system lists;
* the trait `DefaultSchedule` and the fifteen built-in impls generated by
  the `default_schedule_impls!` macro (lines 275-302), as `defaultSchedule`;
* the derive macro `default_schedule` from `bevy_previous_macro/src/lib.rs`
  as a function on a syntax model (`DeriveInput` -> `DeriveOutput`).

Commands in bevy are deferred: the real system iterates the query on the
pre-state and applies its inserts afterwards.  `update` reflects this by
computing every insert from the pre-state `w`.
-/

namespace BevyPrevious

/-- The built-in bevy schedule labels that receive a `DefaultSchedule` impl
in `default_schedule_impls` (src/lib.rs lines 292-301). -/
inductive ScheduleLabel : Type
  | PreStartup
  | Startup
  | PostStartup
  | Main
  | First
  | PreUpdate
  | Update
  | PostUpdate
  | Last
  | FixedMain
  | FixedFirst
  | FixedPreUpdate
  | FixedUpdate
  | FixedPostUpdate
  | FixedLast
deriving DecidableEq

/-- Source: `pub struct Previous<T, S>(pub T, PhantomData<S>)` (src/lib.rs line 78).
`σ` is the phantom schedule-label type parameter; it contributes no data. -/
structure Previous (α : Type) (σ : Type) : Type where
  val : α
deriving DecidableEq

/-- Source: `Previous::new` (src/lib.rs lines 85-87). -/
def Previous.new {α σ : Type} (v : α) : Previous α σ :=
  Previous.mk v

/-- Source: `impl From<T> for Previous<T, S>` (src/lib.rs lines 90-98):
`fn from(value: T) -> Self { Previous::new(value) }`. -/
def Previous.ofT {α σ : Type} (v : α) : Previous α σ :=
  Previous.new v

/-- World state relevant to one tracked component type `α` (with `γ` the
payload of unrelated components).  Entities are identified by `Nat`.
`prev e s` holds the payload wrapped by entity `e`'s `Previous<α, s>`
record, or `none` when the record is absent. -/
structure World (α : Type) (γ : Type) : Type where
  alive : Nat → Bool
  tval : Nat → Option α
  changed : Nat → Bool
  prev : Nat → ScheduleLabel → Option α
  other : Nat → Option γ

/-- Source: `type UpdateFilter<T> = Or<(Without<Previous<T>>, Changed<T>)>`
(src/lib.rs line 227).  `Previous<T>` defaults its second parameter, so the
`Without` clause tests the record at label `Last`. -/
def updateFilter {α γ : Type} (w : World α γ) (e : Nat) : Bool :=
  (w.prev e ScheduleLabel.Last).isNone || w.changed e

/-- Whether the query `Query<(Entity, &T), UpdateFilter<T>>` matches entity
`e`: the entity exists, carries `T`, and passes the filter. -/
def runsOn {α γ : Type} (w : World α γ) (e : Nat) : Bool :=
  w.alive e && (w.tval e).isSome && updateFilter w e

/-- Source: `fn update<T: Component + Clone>` (src/lib.rs lines 228-237): for every
entity matched by the query, insert `Previous::<T>::new(t.clone())` — the
record at label `Last`, whatever schedule the system runs in.  All other
state (the entity set, `T` values, change flags, other components, and
`Previous` records at labels other than `Last`) is untouched. -/
def update {α γ : Type} (w : World α γ) : World α γ :=
  { w with
    prev := fun e s =>
      if s = ScheduleLabel.Last ∧ runsOn w e = true then w.tval e else w.prev e s }

/-- Source: `pub struct PreviousPlugin<T, S> { schedule: S, _t: PhantomData<T> }`
(src/lib.rs lines 206-210), with the label defunctionalised. `α` is the
phantom component type. -/
structure PreviousPlugin (α : Type) : Type where
  schedule : ScheduleLabel

/-- Source: `PreviousPlugin::new` (src/lib.rs lines 244-249). -/
def PreviousPlugin.new {α : Type} (s : ScheduleLabel) : PreviousPlugin α :=
  PreviousPlugin.mk s

/-- The app: a list of registered systems per schedule label. -/
structure App (α γ : Type) : Type where
  systems : ScheduleLabel → List (World α γ → World α γ)

/-- An app with no systems registered. -/
def emptyApp (α γ : Type) : App α γ :=
  App.mk fun _ => []

/-- Source: `impl Plugin for PreviousPlugin<T, S>`: `fn build` does
`app.add_systems(self.schedule.clone(), update::<T>)`
(src/lib.rs lines 217-225).  The registered system is `update` — it does
not depend on the plugin's schedule parameter. -/
def PreviousPlugin.build {α γ : Type} (p : PreviousPlugin α) (app : App α γ) :
    App α γ :=
  App.mk fun l =>
    if l = p.schedule then app.systems l ++ [update] else app.systems l

/-- Run a schedule's system list in order. -/
def runSystems {α γ : Type} : List (World α γ → World α γ) → World α γ → World α γ
  | [], w => w
  | f :: fs, w => runSystems fs (f w)

/-- The fifteen `impl DefaultSchedule for …` produced by the
`default_schedule_impls!` table (src/lib.rs lines 280-301); each impl's
`default()` returns the label's unit value.  Defunctionalised: the impl for
the label *type* `l` becomes the arm at the *value* `l`. -/
def defaultSchedule : ScheduleLabel → ScheduleLabel
  | ScheduleLabel.PreStartup => ScheduleLabel.PreStartup
  | ScheduleLabel.Startup => ScheduleLabel.Startup
  | ScheduleLabel.PostStartup => ScheduleLabel.PostStartup
  | ScheduleLabel.Main => ScheduleLabel.Main
  | ScheduleLabel.First => ScheduleLabel.First
  | ScheduleLabel.PreUpdate => ScheduleLabel.PreUpdate
  | ScheduleLabel.Update => ScheduleLabel.Update
  | ScheduleLabel.PostUpdate => ScheduleLabel.PostUpdate
  | ScheduleLabel.Last => ScheduleLabel.Last
  | ScheduleLabel.FixedMain => ScheduleLabel.FixedMain
  | ScheduleLabel.FixedFirst => ScheduleLabel.FixedFirst
  | ScheduleLabel.FixedPreUpdate => ScheduleLabel.FixedPreUpdate
  | ScheduleLabel.FixedUpdate => ScheduleLabel.FixedUpdate
  | ScheduleLabel.FixedPostUpdate => ScheduleLabel.FixedPostUpdate
  | ScheduleLabel.FixedLast => ScheduleLabel.FixedLast

/-- Source: `impl Default for PreviousPlugin<T, S> where S: DefaultSchedule`
(src/lib.rs lines 252-260): `fn default() -> Self { Self::new(S::default()) }`.
Defunctionalised over the label `s` standing for the type `S`. -/
def PreviousPlugin.defaultOf (α : Type) (s : ScheduleLabel) : PreviousPlugin α :=
  PreviousPlugin.new (defaultSchedule s)

/-- One run of the synchronization point `l`: execute, in order, the systems
the app has registered at schedule `l`. -/
def runLabel {α γ : Type} (app : App α γ) (l : ScheduleLabel) (w : World α γ) :
    World α γ :=
  runSystems (app.systems l) w

/-- The app obtained by installing `PreviousPlugin::<Nat, s>::new(s)` into an
empty app (components carry `Nat` payloads, other components `Unit`). -/
def appFor (s : ScheduleLabel) : App Nat Unit :=
  PreviousPlugin.build (PreviousPlugin.new s) (emptyApp Nat Unit)

/-- A world with a single entity `0` carrying `T = 5`, unchanged, with no
`Previous` record at any label. -/
def wFresh : World Nat Unit where
  alive := fun e => decide (e = 0)
  tval := fun e => if e = 0 then some 5 else none
  changed := fun _ => false
  prev := fun _ _ => none
  other := fun _ => none

/-- A world with a single entity `0` carrying `T = 7` marked changed, a
`Previous<T, Update>` record wrapping `3`, and a `Previous<T, Last>` record
wrapping `100`. -/
def wChanged : World Nat Unit where
  alive := fun e => decide (e = 0)
  tval := fun e => if e = 0 then some 7 else none
  changed := fun e => decide (e = 0)
  prev := fun e s =>
    if e = 0 ∧ s = ScheduleLabel.Update then some 3
    else if e = 0 ∧ s = ScheduleLabel.Last then some 100
    else none
  other := fun _ => none

/-- A world with a single entity `0` carrying `T = 7` not marked changed,
with a `Previous<T, Update>` record wrapping `3` and no `Previous<T, Last>`
record. -/
def wStable : World Nat Unit where
  alive := fun e => decide (e = 0)
  tval := fun e => if e = 0 then some 7 else none
  changed := fun _ => false
  prev := fun e s =>
    if e = 0 ∧ s = ScheduleLabel.Update then some 3 else none
  other := fun _ => none

end BevyPrevious

namespace BevyPreviousMacro

/-- Source: `syn::Fields`: unit structs, named-field structs, tuple structs. -/
inductive Fields : Type
  | unit
  | named (fs : List String)
  | unnamed (fs : List String)
deriving DecidableEq

/-- Source: `syn::Data`: the shape of the derive input. -/
inductive Data : Type
  | structData (f : Fields)
  | enumData
  | unionData
deriving DecidableEq

/-- Source: `syn::GenericParam`: a type parameter with bounds and attributes, a
lifetime parameter with bounds and attributes, or a const parameter with
attributes. -/
inductive GenericParam : Type
  | typeParam (n : String) (bounds : List String) (attrs : List String)
  | lifetimeParam (n : String) (bounds : List String) (attrs : List String)
  | constParam (n : String) (ty : String) (attrs : List String)
deriving DecidableEq

/-- Source: `syn::DeriveInput`: identifier, generic parameters, optional where
clause (kept abstract as a string), and the data shape. -/
structure DeriveInput : Type where
  ident : String
  generics : List GenericParam
  whereClause : Option String
  data : Data
deriving DecidableEq

/-- Output of the derive macro: either the generated
`impl<implParams> ::bevy_previous::DefaultSchedule for ident<selfTyArgs>`
block (with its optional where clause; the body always returns the unit
value `ident`), or a compile error token stream. -/
inductive DeriveOutput : Type
  | implBlock (ident : String) (implParams : List GenericParam)
      (selfTyArgs : List GenericParam) (whereClause : Option String)
  | compileError (msg : String)
deriving DecidableEq

/-- The diagnostic emitted for every non-unit-struct input
(bevy_previous_macro/src/lib.rs line 90). -/
def unitStructErr : String :=
  "The macro only works on unit structs."

/-- The per-parameter transformation of the generic branch
(bevy_previous_macro/src/lib.rs lines 42-60): type and lifetime parameters
get `bounds.clear()` and `attrs.clear()`; const parameters get
`attrs.clear()` only. -/
def unbound : GenericParam → GenericParam
  | GenericParam.typeParam n _ _ => GenericParam.typeParam n [] []
  | GenericParam.lifetimeParam n _ _ => GenericParam.lifetimeParam n [] []
  | GenericParam.constParam n t _ => GenericParam.constParam n t []

/-- Source: `pub fn default_schedule(input: TokenStream) -> TokenStream`
(bevy_previous_macro/src/lib.rs lines 22-92).  A unit struct with no
generic parameters yields the plain impl; a unit struct with parameters
yields the generic impl whose impl-parameters are the original parameters
and whose self-type arguments are the unbounded ones, keeping the where
clause when present; every other shape yields the compile error. -/
def default_schedule (input : DeriveInput) : DeriveOutput :=
  match input.data with
  | Data.structData Fields.unit =>
      if input.generics.isEmpty then
        DeriveOutput.implBlock input.ident [] [] none
      else
        DeriveOutput.implBlock input.ident input.generics
          (input.generics.map unbound) input.whereClause
  | _ => DeriveOutput.compileError unitStructErr

/-- Whether the macro output is a generated implementation (as opposed to a
compile error). -/
def emitsImpl : DeriveOutput → Bool
  | DeriveOutput.implBlock _ _ _ _ => true
  | DeriveOutput.compileError _ => false

/-- The shape the source actually accepts: `Fields::Unit`. -/
def isUnitStruct : Data → Bool
  | Data.structData Fields.unit => true
  | _ => false

/-- Modelled from the spec: "inspects the target type's shape (must have no
fields)" — a type declaration has no fields when it is a struct whose field
list is empty (unit structs, empty braced structs `struct Foo {}`, and
empty tuple structs `struct Foo();` all have no fields). -/
def hasNoFieldsSpec (input : DeriveInput) : Bool :=
  match input.data with
  | Data.structData Fields.unit => true
  | Data.structData (Fields.named fs) => fs.isEmpty
  | Data.structData (Fields.unnamed fs) => fs.isEmpty
  | Data.enumData => false
  | Data.unionData => false

/-- Whether the macro output is exactly the unit-struct compile error. -/
def isUnitStructErrOut : DeriveOutput → Bool
  | DeriveOutput.compileError m => decide (m = unitStructErr)
  | DeriveOutput.implBlock _ _ _ _ => false

/-- The derive input for `struct Foo {}` — a braced struct with an empty
field list: it has no fields, yet is not a unit struct. -/
def emptyBracedStruct : DeriveInput where
  ident := "Foo"
  generics := []
  whereClause := none
  data := Data.structData (Fields.named [])

/-- The derive input for `struct Marker<X: Clone> {}` — a generic braced
struct with an empty field list: field-less, generic, not a unit struct. -/
def emptyBracedGeneric : DeriveInput where
  ident := "Marker"
  generics := [GenericParam.typeParam ("X") ["Clone"] []]
  whereClause := none
  data := Data.structData (Fields.named [])

end BevyPreviousMacro

/-!
Theorems.  Each claim theorem carries the claim id in its doc comment.
-/

namespace BevyPrevious

/-- Two worlds with component-wise equal fields are equal. -/
theorem World.ext_of {α γ : Type} {w1 w2 : World α γ}
    (h1 : w1.alive = w2.alive) (h2 : w1.tval = w2.tval)
    (h3 : w1.changed = w2.changed) (h4 : w1.prev = w2.prev)
    (h5 : w1.other = w2.other) : w1 = w2 := by
  cases w1
  cases w2
  simp_all

/-- Running `update` twice leaves the same `prev` map as running it once:
the second pass re-inserts the same value for still-changed entities and
skips everything else. -/
theorem update_prev_stable {α γ : Type} (w : World α γ) (e : Nat)
    (s : ScheduleLabel) :
    (update (update w)).prev e s = (update w).prev e s := by
  by_cases hs : s = ScheduleLabel.Last
  · subst hs
    cases hA : w.alive e <;>
      cases hT : w.tval e <;>
        cases hC : w.changed e <;>
          cases hP : w.prev e ScheduleLabel.Last <;>
            simp [update, runsOn, updateFilter, hA, hT, hC, hP]
  · simp [update, hs]

/-- The `update` system is idempotent as a state transformer. -/
theorem update_update {α γ : Type} (w : World α γ) :
    update (update w) = update w :=
  World.ext_of rfl rfl rfl
    (funext fun e => funext fun s => update_prev_stable w e s) rfl

end BevyPrevious

namespace BevyPrevious

/-- Claim C1: the claim asserts a run of the update operation registered for
`S1` never writes or removes the entity's `Previous<T, S2>` record and
maintains `Previous<T, S1>`.  Code evidence against it, at `S1 = Update`,
`S2 = Last`: the operation `PreviousPlugin<Nat, Update>` registers at point
`Update` is `update`; one run of that point on `wFresh` inserts entity `0`'s
`Previous<T, Last>` (= `Previous<T, S2>`) record and leaves
`Previous<T, Update>` (= `Previous<T, S1>`) absent. -/
theorem c1_s1_run_writes_s2_record :
    (appFor ScheduleLabel.Update).systems ScheduleLabel.Update = [update] ∧
    (runLabel (appFor ScheduleLabel.Update) ScheduleLabel.Update wFresh).prev 0
        ScheduleLabel.Last = some 5 ∧
    (runLabel (appFor ScheduleLabel.Update) ScheduleLabel.Update wFresh).prev 0
        ScheduleLabel.Update = none ∧
    wFresh.prev 0 ScheduleLabel.Last = none :=
  ⟨rfl, rfl, rfl, rfl⟩

/-- Claim C2: the claim asserts that with the change flag set, one run of
point `S` leaves `Previous<T, S>` wrapping the new `T` value.  Code
evidence against it, at `S = Update`: entity `0` of `wChanged` carries
`T = 7` marked changed and `Previous<T, Update>` wrapping `3`; after one
run of point `Update` the `Previous<T, Update>` record still wraps `3`,
not `7` (the run wrote the `Last`-label record instead). -/
theorem c2_change_not_propagated_to_s_record :
    wChanged.changed 0 = true ∧
    wChanged.tval 0 = some 7 ∧
    wChanged.prev 0 ScheduleLabel.Update = some 3 ∧
    (runLabel (appFor ScheduleLabel.Update) ScheduleLabel.Update wChanged).prev 0
        ScheduleLabel.Update = some 3 :=
  ⟨rfl, rfl, rfl, rfl⟩

/-- Claim C3: the claim asserts that an entity carrying `T` but not
`Previous<T, S>` carries, after one run of point `S`, a `Previous<T, S>`
record wrapping its `T` value.  Code evidence against it, at `S = Update`:
entity `0` of `wFresh` carries `T = 5` and no `Previous` record; after one
run of point `Update` it still has no `Previous<T, Update>` record — the
run created `Previous<T, Last>` instead. -/
theorem c3_first_observation_lands_on_wrong_label :
    wFresh.tval 0 = some 5 ∧
    wFresh.prev 0 ScheduleLabel.Update = none ∧
    (runLabel (appFor ScheduleLabel.Update) ScheduleLabel.Update wFresh).prev 0
        ScheduleLabel.Update = none ∧
    (runLabel (appFor ScheduleLabel.Update) ScheduleLabel.Update wFresh).prev 0
        ScheduleLabel.Last = some 5 :=
  ⟨rfl, rfl, rfl, rfl⟩

/-- Claim C4: the claim asserts that an entity already carrying
`Previous<T, S>` whose change flag is unset receives no write when point
`S` runs.  Code evidence against it, at `S = Update`: entity `0` of
`wStable` carries `Previous<T, Update>` and is not marked changed, yet the
query matches it (`runsOn` is true, so an insert command is issued) and the
run writes a fresh `Previous<T, Last>` record onto it. -/
theorem c4_unchanged_entity_still_written :
    wStable.changed 0 = false ∧
    wStable.prev 0 ScheduleLabel.Update = some 3 ∧
    runsOn wStable 0 = true ∧
    wStable.prev 0 ScheduleLabel.Last = none ∧
    (runLabel (appFor ScheduleLabel.Update) ScheduleLabel.Update wStable).prev 0
        ScheduleLabel.Last = some 7 :=
  ⟨rfl, rfl, rfl, rfl, rfl⟩

/-- Claim C5: the claim asserts one run of the operation registered by
`PreviousPlugin<T, S>` only writes `Previous<T, S>` records.  Code evidence
against it, at `S = Update`: the run on `wFresh` does leave `T`, the entity
set, and unrelated components unchanged, but it inserts a
`Previous<T, Last>` record — a record other than `Previous<T, Update>`. -/
theorem c5_run_writes_outside_its_own_records :
    (update wFresh).tval = wFresh.tval ∧
    (update wFresh).alive = wFresh.alive ∧
    (update wFresh).changed = wFresh.changed ∧
    (update wFresh).other = wFresh.other ∧
    wFresh.prev 0 ScheduleLabel.Last = none ∧
    (runLabel (appFor ScheduleLabel.Update) ScheduleLabel.Update wFresh).prev 0
        ScheduleLabel.Last = some 5 :=
  ⟨rfl, rfl, rfl, rfl, rfl, rfl⟩

/-- Claim C7: `PreviousPlugin::<T, S>::default()` equals
`PreviousPlugin::<T, S>::new(S::default())`, and for each built-in schedule
label type the generated `DefaultSchedule::default()` returns that label's
canonical unit instance. -/
theorem c7_default_resolution :
    ∀ (α : Type) (s : ScheduleLabel),
      PreviousPlugin.defaultOf α s = PreviousPlugin.new (defaultSchedule s) ∧
      defaultSchedule s = s := by
  intro α s
  exact ⟨rfl, by cases s <;> rfl⟩

/-- Claim C9: installing the same `(T, S)` plugin twice registers the update
system twice at point `S`; one run of that point (the two system executions
back to back, with no `T` mutation and no change-flag movement between
them) ends in exactly the state the once-installed app reaches — the
duplicated write is idempotent and corrupts nothing. -/
theorem c9_duplicate_registration_idempotent {α γ : Type} (s : ScheduleLabel)
    (w : World α γ) :
    runLabel (PreviousPlugin.build (PreviousPlugin.new s : PreviousPlugin α)
        (PreviousPlugin.build (PreviousPlugin.new s) (emptyApp α γ))) s w
      = runLabel (PreviousPlugin.build (PreviousPlugin.new s : PreviousPlugin α)
        (emptyApp α γ)) s w := by
  simp [runLabel, PreviousPlugin.build, emptyApp, PreviousPlugin.new, runSystems]
  exact update_update w

/-- Claim C10: `Previous::<T, S>::new(v)` wraps exactly `v` (its public
payload field equals `v`), and the `From<T>` conversion returns the same
record as `new(v)`. -/
theorem c10_constructor_round_trip {α σ : Type} (v : α) :
    (Previous.new v : Previous α σ).val = v ∧
    (Previous.ofT v : Previous α σ) = Previous.new v :=
  ⟨rfl, rfl⟩

end BevyPrevious

namespace BevyPreviousMacro

/-- Claim C6 counterexample: the empty braced struct `struct Foo {}` has no
fields, yet the derive refuses it with the unit-struct error instead of
emitting an implementation — the claimed "if and only if the type has no
fields" rule fails at this input. -/
theorem c6_counterexample_fieldless_braced_struct :
    hasNoFieldsSpec emptyBracedStruct = true ∧
    emitsImpl (default_schedule emptyBracedStruct) = false ∧
    default_schedule emptyBracedStruct = DeriveOutput.compileError unitStructErr :=
  ⟨rfl, rfl, rfl⟩

/-- Claim C6 amended: the derive emits an implementation iff the input is a
unit struct (`Fields::Unit`); every other shape — including field-less
braced structs and empty tuple structs — yields exactly the compile-time
diagnostic "The macro only works on unit structs.". -/
theorem c6_amended_emits_iff_unit_struct (input : DeriveInput) :
    emitsImpl (default_schedule input) = isUnitStruct input.data ∧
    isUnitStructErrOut (default_schedule input) = !isUnitStruct input.data := by
  cases input with
  | mk i g wc d =>
    cases d with
    | structData f =>
      cases f with
      | unit =>
        cases hg : g.isEmpty <;>
          simp [default_schedule, emitsImpl, isUnitStruct, isUnitStructErrOut, hg]
      | named fs =>
        simp [default_schedule, emitsImpl, isUnitStruct, isUnitStructErrOut]
      | unnamed fs =>
        simp [default_schedule, emitsImpl, isUnitStruct, isUnitStructErrOut]
    | enumData =>
      simp [default_schedule, emitsImpl, isUnitStruct, isUnitStructErrOut]
    | unionData =>
      simp [default_schedule, emitsImpl, isUnitStruct, isUnitStructErrOut]

/-- Claim C8 counterexample: `struct Marker<X: Clone> {}` is a field-less
type declaration with a generic parameter, yet the derive emits the
unit-struct error rather than a generic capability implementation. -/
theorem c8_counterexample_generic_fieldless_braced_struct :
    hasNoFieldsSpec emptyBracedGeneric = true ∧
    emptyBracedGeneric.generics.isEmpty = false ∧
    default_schedule emptyBracedGeneric = DeriveOutput.compileError unitStructErr :=
  ⟨rfl, rfl, rfl⟩

/-- Claim C8 amended: for every *unit-struct* declaration with at least one
generic parameter (type, lifetime, or const) and optional where clause, the
derive emits an implementation whose impl-header parameters are the
original ones with their declared bounds (and the where clause preserved)
and whose self-type arguments are the same parameters with bounds and
attributes removed. -/
theorem c8_amended_generic_passthrough (i : String) (p : GenericParam)
    (ps : List GenericParam) (wc : Option String) :
    default_schedule (DeriveInput.mk i (p :: ps) wc (Data.structData Fields.unit))
      = DeriveOutput.implBlock i (p :: ps) ((p :: ps).map unbound) wc := by
  simp [default_schedule]

end BevyPreviousMacro
